import Mathlib

set_option maxHeartbeats 1000000
set_option maxRecDepth 4000

/-!
Verification development for `glidein2.py` (htcondor-pyglidein, version 0.9.4).

The program is a linear provisioning sequence driven by `CondorGlidein.__init__`:
download a platform-specific HTCondor tarball, create a working directory,
unpack, optionally stage auxiliary executables, render a configuration file,
start `condor_master`, and tear everything down via `cleanup()`.

The embedding below is a shallow one:

* Pure string manipulation (`textwrap.dedent`, `os.path.basename`, Python's
  `in` substring test, `str.startswith`) is re-implemented structurally over
  `List Char` so that every definition evaluates by kernel reduction.
* Each lifecycle step becomes a function from an explicit state `St` (the
  mutable attributes of the `CondorGlidein` object plus an abstract on-disk
  file set `fs`) to a result `Res`, with environment/effect outcomes supplied
  by an `Env` record (architecture, distro strings, success/failure of each
  library call).
* Python control flow around exceptions is made explicit: `Res.exit c`
  models `sys.exit(c)` reaching the top level, `Res.raise e` models an
  uncaught Python exception propagating out of the call (the interpreter then
  terminates with a traceback), and each `try/except` in the source is
  translated by matching on the outcome of the guarded operation, honouring
  which exception classes the `except` clauses actually catch
  (e.g. `except OSError` does not catch `AttributeError`, and
  `except Exception` does not catch `SystemExit`).
-/

/-! ## Character/string utilities (structural, kernel-computable) -/

def isWSChar (c : Char) : Bool := c == ' ' || c == '\t'

/-- Split a character list at newline characters, like `str.split('\n')`:
the result always has one more entry than the number of newlines. -/
def splitLines : List Char → List (List Char)
  | [] => [[]]
  | c :: cs =>
    if c == '\n' then [] :: splitLines cs
    else
      match splitLines cs with
      | [] => [[c]]
      | l :: ls => (c :: l) :: ls

/-- Rejoin lines with a newline separator; inverse of `splitLines`. -/
def joinLines : List (List Char) → List Char
  | [] => []
  | [l] => l
  | l :: ls => l ++ '\n' :: joinLines ls

def wsOnly (l : List Char) : Bool := l.all isWSChar

def leadWS (l : List Char) : List Char := l.takeWhile isWSChar

/-- Longest common prefix of two character lists. -/
def commonPre : List Char → List Char → List Char
  | x :: xs, y :: ys => if x == y then x :: commonPre xs ys else []
  | _, _ => []

/-- Does the second list start with the first one? -/
def startsWithChars : List Char → List Char → Bool
  | [], _ => true
  | _ :: _, [] => false
  | p :: ps, c :: cs => p == c && startsWithChars ps cs

/-- Python `textwrap.dedent` on a character list: whitespace-only lines are
normalized to empty, the common leading whitespace (margin) of the remaining
lines is computed, and that margin is stripped from every line that carries
it. -/
def dedentChars (cs : List Char) : List Char :=
  let lines := (splitLines cs).map (fun l => if wsOnly l then [] else l)
  let indents := (lines.filter (fun l => !(wsOnly l))).map leadWS
  let margin :=
    match indents with
    | [] => []
    | i :: rest => rest.foldl commonPre i
  joinLines (lines.map (fun l =>
    if !(margin.isEmpty) && startsWithChars margin l then l.drop margin.length else l))

/-- `textwrap.dedent` on strings. -/
def dedent (s : String) : String := String.mk (dedentChars s.toList)

/-- Is `pat` a contiguous substring of the character list? -/
def charsInfix (pat : List Char) : List Char → Bool
  | [] => pat.isEmpty
  | c :: cs => startsWithChars pat (c :: cs) || charsInfix pat cs

/-- Python's `pat in s` substring test. -/
def strContains (s pat : String) : Bool := charsInfix pat.toList s.toList

/-- Python's `s.startswith(pre)`. -/
def strStartsWith (s pre : String) : Bool := startsWithChars pre.toList s.toList

/-- Characters after the last slash, like `os.path.basename`. -/
def basenameChars (cs : List Char) : List Char :=
  cs.foldl (fun acc c => if c == '/' then [] else acc ++ [c]) []

/-- `os.path.basename`. -/
def basename (p : String) : String := String.mk (basenameChars p.toList)

/-- Python truthiness of a string: non-empty strings are truthy. -/
def pyTruthy (s : String) : Bool := !(s.toList.isEmpty)

/-! ## Error and result types -/

/-- The Python exception classes this program can let escape or must
distinguish in `except` clauses. -/
inductive PyError where
  | exception       -- a bare `raise Exception(...)`
  | typeError       -- TypeError (e.g. `"password" in None`)
  | nameError       -- NameError (reading a never-assigned local)
  | attributeError  -- AttributeError (reading a never-set instance attribute)
  deriving DecidableEq, Repr

/-- Outcome of an `os.mkdir` call: success, `OSError` with `errno.EEXIST`,
or any other `OSError`. -/
inductive MkdirRes where
  | ok
  | eexist
  | err
  deriving DecidableEq, Repr

/-! ## Lifecycle state

One record holding the `CondorGlidein` attributes. `Option` fields model
instance attributes that may not have been assigned yet: `none` means the
attribute is absent, so reading it raises `AttributeError`. The field
defaults mirror the CLI defaults installed by `parser.set_defaults` in
`__main__`. `fs` is the abstract set (list) of on-disk paths the controller
has created. -/

structure St where
  condor_version : String := "8.6.0"
  condor_urlbase : String := "http://download.virtualclusters.org/repository"
  collector : String := "condor.grid.uchicago.edu:9618"
  lingertime : Nat := 600
  iwd : Option String := none
  noclean : Bool := false
  auth : Option String := some "password"
  password : Option String := none
  exec_wrapper_param : Option String := none
  startd_cron_param : Option String := none
  masterpid : Option Nat := none
  condor_platform : Option String := none
  condor_tarball : Option String := none
  glidein_dir : Option String := none
  glidein_local_dir : Option String := none
  condor_dir : Option String := none
  -- `self.exec_wrapper` / `self.startd_cron` as set at line 69/71:
  -- `none` = attribute absent (`hasattr` false); `some f` = attribute set to
  -- the return value of `copy_to_exec`, which is itself an `Option` because
  -- `realize_file` can fall through and return `None`.
  wrapperStaged : Option (Option String) := none
  cronStaged : Option (Option String) := none
  configText : Option String := none
  fs : List String := []
  deriving DecidableEq, Repr

/-- Terminal outcome of `cleanup()`: it never returns normally — it either
reaches `sys.exit(1)` or lets an exception escape. -/
inductive Term where
  | exit : Nat → St → Term
  | raise : PyError → St → Term
  deriving DecidableEq, Repr

/-- Outcome of a lifecycle step: normal return carrying a value, process
exit via `sys.exit`, or an uncaught Python exception. -/
inductive Res (α : Type) where
  | ok : α → Res α
  | exit : Nat → St → Res α
  | raise : PyError → St → Res α
  deriving DecidableEq, Repr

def Term.toRes {α : Type} : Term → Res α
  | .exit c s => .exit c s
  | .raise e s => .raise e s

def exitCodeOf {α : Type} : Res α → Option Nat
  | .exit c _ => some c
  | _ => none

def isExitRes {α : Type} : Res α → Bool
  | .exit _ _ => true
  | _ => false

/-- `shutil.rmtree(d)` on the abstract file set: drop every path inside the
tree rooted at `d` (a failure, e.g. because the directory does not exist, is
caught by `except Exception` in `cleanup` and ignored, so the operation is
total here). -/
def removeTreeFilter (d : String) (fs : List String) : List String :=
  fs.filter (fun q => !(strStartsWith q d))

/-! ## `CondorGlidein.cleanup` (lines 238-277)

Step by step:
* `os.kill(self.masterpid, SIGTERM)` is wrapped in `except Exception`, which
  swallows both `AttributeError` (pid never recorded) and any kill failure,
  so it has no observable effect on the model.
* `time.sleep(10)` — no effect.
* `if self.noclean is True: sys.exit(1)` — exit without touching files.
* `os.remove(self.condor_tarball)`: the attribute read happens first; if
  `condor_tarball` was never assigned this raises `AttributeError`, which the
  surrounding `except OSError` does NOT catch, so it escapes `cleanup`.
  If the path exists it is removed; a missing file raises `OSError` with
  `errno.ENOENT`, which is caught and logged.
* `shutil.rmtree(self.glidein_dir)`: `except AttributeError` covers the
  never-assigned case, `except Exception` covers everything else.
* `sys.exit(1)`. -/

def cleanup (st : St) : Term :=
  if st.noclean then Term.exit 1 st
  else
    match st.condor_tarball with
    | none => Term.raise .attributeError st
    | some p =>
      let st1 : St := { st with fs := st.fs.erase p }
      let st2 : St :=
        match st1.glidein_dir with
        | none => st1
        | some d => { st1 with fs := removeTreeFilter d st1.fs }
      Term.exit 1 st2

/-- `CondorGlidein.interrupt_handler` (lines 396-402): runs `cleanup`; the
trailing `sys.exit(1)` is unreachable because `cleanup` never returns. -/
def interrupt_handler (st : St) : Term := cleanup st

/-! ## Environment of external effects

One record fixing, for a given run, what the host platform reports and
whether each external call (download, mkdir, tar, chmod, helper commands,
config write) succeeds. The defaults describe an ordinary successful run. -/

structure Env where
  machine : String := "x86_64"          -- platform.machine()
  system : String := "Linux"            -- platform.system()
  distro_name : String := "CentOS Linux"   -- platform.linux_distribution()[0]
  distro_major : String := "7"          -- linux_distribution()[1].split(".",1)[0]
  cwd : String := "/tmp/run"            -- os.getcwd()
  downloadOk : Bool := true             -- urllib.urlretrieve of the tarball
  probeRc : Nat := 0                    -- returncode of the `file` command
  probeOut : String := "gzip compressed data"  -- stdout of the `file` command
  workdirOk : Bool := true              -- mkdtemp + the os.mkdir calls
  tmpSuffix : String := "ABC123"        -- random suffix chosen by mkdtemp
  tarNames : Option (List String) := some ["condor-8.6.0-x86_64_RedHat7-stripped"]
                                        -- tar.getnames(); none = open/extract raised
  wrapperMkdir : MkdirRes := .ok        -- os.mkdir(local_libexec) for the wrapper
  cronMkdir : MkdirRes := .eexist       -- same mkdir on the second call
  wrapperFetchOk : Bool := true         -- realize_file materialization (wrapper)
  cronFetchOk : Bool := true            -- realize_file materialization (cron)
  chmodOk : Bool := true                -- os.chmod of a staged artifact
  storeCredRc : Nat := 0                -- returncode of condor_store_cred
  writeOk : Bool := true                -- writing the condor_config file
  childPid : Nat := 4242                -- pid of the spawned condor_master
  deriving DecidableEq, Repr

/-! ## `CondorGlidein.download_tarball` (lines 127-181) -/

/-- Resolution of the `distro` local variable in `download_tarball`
(lines 144-154), with Python's evaluation order made explicit:

* On Linux the first branch condition is
  `"Scientific" or "CentOS" or "Red Hat" in distro_name`, which Python
  evaluates as `truthy("Scientific") or truthy("CentOS") or
  ("Red Hat" in distro_name)` — the first disjunct is a non-empty string
  literal, hence always truthy, so the branch is taken for every
  distribution name and the `Debian`/`Ubuntu`/`raise` alternatives are dead.
* On Darwin, `distro = 'MacOSX'`.
* On any other system no branch assigns `distro`, so its use at line 156
  raises `NameError`. -/
inductive DistroRes where
  | ok : String → DistroRes
  | raiseExc : DistroRes   -- raise Exception("Unable to determine distro")
  | nameErr : DistroRes    -- `distro` never assigned; NameError at the use site
  deriving DecidableEq, Repr

def resolveDistro (system distro_name distro_major : String) : DistroRes :=
  if system == "Linux" then
    if pyTruthy "Scientific" || pyTruthy "CentOS" || strContains distro_name "Red Hat" then
      .ok ("RedHat" ++ distro_major)
    else if strContains distro_name "Debian" then .ok ("Debian" ++ distro_major)
    else if strContains distro_name "Ubuntu" then .ok ("Ubuntu" ++ distro_major)
    else .raiseExc
  else if system == "Darwin" then .ok "MacOSX"
  else .nameErr

/-- `download_tarball`:
* unsupported architecture: `raise Exception` (line 137) — NOT `cleanup`;
* build `condor_platform` / `condor_tarball` from the resolved distro;
* `urlretrieve` failure → `except Exception` → `self.cleanup()`;
* run `file` via `runcommand` — a non-zero returncode makes `runcommand`
  itself call `self.cleanup()`;
* probe output without `"gzip compressed data"` → `self.cleanup()`. -/
def download_tarball (env : Env) (st : St) : Res St :=
  if env.machine == "x86_64" then
    match resolveDistro env.system env.distro_name env.distro_major with
    | .raiseExc => .raise .exception st
    | .nameErr => .raise .nameError st
    | .ok distro =>
      let condor_platform :=
        "condor-" ++ st.condor_version ++ "-" ++ env.machine ++ "_" ++ distro ++ "-stripped"
      let tarball_name := condor_platform ++ ".tar.gz"
      let ct := env.cwd ++ "/" ++ tarball_name
      let st := { st with condor_platform := some condor_platform,
                          condor_tarball := some ct }
      if env.downloadOk then
        let st := { st with fs := ct :: st.fs }
        if env.probeRc == 0 then
          if strContains env.probeOut "gzip compressed data" then .ok st
          else (cleanup st).toRes
        else (cleanup st).toRes
      else (cleanup st).toRes
  else .raise .exception st

/-! ## `CondorGlidein.setup_workdir` (lines 100-125)

`mkdtemp` under `iwd` (defaulting to the current directory), then the
`local` subtree (`etc`, `log`, `lock`, `execute`). Any failure is caught by
`except Exception` and routed to `cleanup`. Partial creation (some mkdir
succeeding before a later one fails) is abstracted: `workdirOk` decides the
whole block. -/

def setup_workdir (env : Env) (st : St) : Res St :=
  let iwd := st.iwd.getD env.cwd
  let st := { st with iwd := some iwd }
  if env.workdirOk then
    let gd := iwd ++ "/condor-glidein." ++ env.tmpSuffix
    let gld := gd ++ "/local"
    .ok { st with glidein_dir := some gd, glidein_local_dir := some gld,
                  fs := (gld ++ "/execute") :: (gld ++ "/lock") :: (gld ++ "/log")
                        :: (gld ++ "/etc") :: gld :: gd :: st.fs }
  else (cleanup st).toRes

/-! ## `CondorGlidein.unpack_tarball` (lines 183-200)

Everything is inside one `try ... except Exception`, so an `AttributeError`
on a never-set `condor_tarball`/`glidein_dir`, a tar failure, an empty name
list (`getnames()[0]` raising `IndexError`), or `os.remove` failing on a
missing file all route to `cleanup`. The extracted tree itself is not
tracked in `fs`; the only file-set change is the removal of the tarball. -/

def unpack_tarball (env : Env) (st : St) : Res St :=
  match st.condor_tarball with
  | none => (cleanup st).toRes
  | some tb =>
    match env.tarNames with
    | none => (cleanup st).toRes
    | some names =>
      match st.glidein_dir with
      | none => (cleanup st).toRes
      | some gd =>
        match names with
        | [] => (cleanup st).toRes
        | n :: _ =>
          let cd := gd ++ "/" ++ n
          if st.fs.contains tb then
            .ok { st with condor_dir := some cd, fs := st.fs.erase tb }
          else (cleanup { st with condor_dir := some cd }).toRes

/-! ## `CondorGlidein.copy_to_exec` (lines 202-235) and
`CondorGlidein.realize_file` (lines 419-440)

* `local_libexec = self.glidein_local_dir + "/libexec"` happens inside a
  `try ... except OSError`; a missing `glidein_local_dir` attribute raises
  `AttributeError`, which that clause does not catch, so it escapes.
* `os.mkdir(local_libexec)`: `EEXIST` is tolerated, any other `OSError`
  routes to `cleanup`.
* `realize_file`: for an `http` source a failing `urlretrieve` is swallowed
  by a bare `except` that only logs, and the function falls through
  returning `None`; for a local source a failing `shutil.copyfile` raises,
  which `copy_to_exec` catches (`except Exception`) and routes to `cleanup`.
* `os.chmod(f, 0755)`: any failure — including the `TypeError` from
  `f = None` — is caught and only logged; `f` is returned regardless. -/

def copy_to_exec (mk : MkdirRes) (fetchOk : Bool) (chmodOk : Bool)
    (path : String) (st : St) : Res (St × Option String) :=
  match st.glidein_local_dir with
  | none => .raise .attributeError st
  | some gld =>
    match mk with
    | .err => (cleanup st).toRes
    | _ =>
      let local_libexec := gld ++ "/libexec"
      let d := local_libexec ++ "/" ++ basename path
      if strStartsWith path "http" then
        if fetchOk then .ok ({ st with fs := d :: st.fs }, some d)
        else .ok (st, none)
      else
        if fetchOk then .ok ({ st with fs := d :: st.fs }, some d)
        else (cleanup st).toRes

/-- Line 68-69: `if exec_wrapper is not None: self.exec_wrapper = self.copy_to_exec(exec_wrapper)`. -/
def stage_wrapper (env : Env) (st : St) : Res St :=
  match st.exec_wrapper_param with
  | none => .ok st
  | some p =>
    match copy_to_exec env.wrapperMkdir env.wrapperFetchOk env.chmodOk p st with
    | .ok (st1, f) => .ok { st1 with wrapperStaged := some f }
    | .exit c s => .exit c s
    | .raise e s => .raise e s

/-- Line 70-71: `if startd_cron is not None: self.startd_cron = self.copy_to_exec(startd_cron)`. -/
def stage_cron (env : Env) (st : St) : Res St :=
  match st.startd_cron_param with
  | none => .ok st
  | some p =>
    match copy_to_exec env.cronMkdir env.cronFetchOk env.chmodOk p st with
    | .ok (st1, f) => .ok { st1 with cronStaged := some f }
    | .exit c s => .exit c s
    | .raise e s => .raise e s

/-! ## `CondorGlidein.initial_config` (lines 279-377)

The raw template literals below reproduce the Python triple-quoted strings
character for character (including trailing spaces and the indentation that
`textwrap.dedent` later strips). Interpolation (`%`) happens before `dedent`,
exactly as in the source. -/

/-- The `dynamic_config` literal after `%`-interpolation with
`(self.collector, self.lingertime, "TRUE", self.condor_dir,
self.glidein_local_dir)`. -/
def dynamic_config_raw (collector : String) (linger : Nat)
    (condor_dir glidein_local_dir : String) : String :=
  " \n            COLLECTOR_HOST = " ++ collector ++
  "\n            STARTD_NOCLAIM_SHUTDOWN = " ++ toString linger ++
  "\n            START = TRUE\n            RELEASE_DIR = " ++ condor_dir ++
  "\n            GLIDEIN_LOCAL_DIR = " ++ glidein_local_dir ++ " \n        "

/-- The `static_config` literal (lines 303-324), verbatim. -/
def static_config_raw : String :=
  "\n            SUSPEND                     = FALSE\n            PREEMPT                     = FALSE\n            KILL                        = FALSE\n            RANK                        = 0\n            CLAIM_WORKLIFE              = 3600\n            JOB_RENICE_INCREMENT        = 0\n            HIGHPORT                    = 30000\n            LOWPORT                     = 20000\n            DAEMON_LIST                 = MASTER, STARTD \n            ALLOW_WRITE                 = condor_pool@*, submit-side@matchsession\n            SEC_DEFAULT_AUTHENTICATION  = REQUIRED\n            SEC_DEFAULT_ENCRYPTION      = REQUIRED\n            SEC_DEFAULT_INTEGRITY       = REQUIRED\n            ALLOW_ADMINISTRATOR         = condor_pool@*/*\n            SLOT_TYPE_1                 = cpus=1\n            NUM_SLOTS_TYPE_1            = 1\n            LOCAL_DIR                   = $(GLIDEIN_LOCAL_DIR)\n            LOCK                        = $(GLIDEIN_LOCAL_DIR)/lock\n            USE_SHARED_PORT             = FALSE\n            COLLECTOR_PORT              = 9618 \n        "

/-- The `wrapper` line (line 329): plain string, no dedent. -/
def wrapper_line (w : String) : String :=
  "USER_JOB_WRAPPER = $(GLIDEIN_LOCAL_DIR)/libexec/" ++ basename w

/-- The `cron` literal (lines 332-340) after interpolation with
`os.path.basename(self.startd_cron)`. -/
def cron_block_raw (c : String) : String :=
  "\n                STARTD_CRON_JOBLIST          = $(STARTD_CRON_JOBLIST) generic\n                STARTD_CRON_generic_EXECUTABLE = $(GLIDEIN_LOCAL_DIR)/libexec/" ++
  basename c ++
  "\n                STARTD_CRON_generic_PERIOD   = 5m\n                STARTD_CRON_generic_MODE     = PERIODIC\n                STARTD_CRON_generic_RECONFIG = TRUE\n                STARTD_CRON_generic_KILL     = TRUE\n                STARTD_CRON_generic_ARGS     = NONE \n            "

/-- The `passwd_config` literal (lines 355-358), verbatim. -/
def passwd_config_raw : String :=
  "\n                SEC_DEFAULT_AUTHENTICATION_METHODS = PASSWORD\n                SEC_PASSWORD_FILE = $(GLIDEIN_LOCAL_DIR)/etc/condor_password\n                "

/-- Final step of `initial_config`: `"".join(config_bits)` and the write of
`<glidein_local_dir>/etc/condor_config`; a write failure routes to
`cleanup`. -/
def writeConfig (writeOk : Bool) (bits : List String) (gld : String) (st : St) : Res St :=
  let config := String.join bits
  if writeOk then
    .ok { st with configText := some config,
                  fs := (gld ++ "/etc/condor_config") :: st.fs }
  else (cleanup st).toRes

/-- `initial_config`:
* `config_dir = self.glidein_local_dir + "/etc"` (line 289) and
  `self.condor_dir` in the dynamic block (line 299) are attribute reads
  outside any `try`, so a never-set attribute raises `AttributeError`.
* `config_bits` starts as `[dedent(dynamic), dedent(static)]`.
* `hasattr(self, 'exec_wrapper')` appends the wrapper line; if the attribute
  holds `None` (a failed URL staging), `os.path.basename(None)` raises
  `TypeError` outside any `try`. Same for `startd_cron`.
* `"password" in self.auth` raises `TypeError` when `self.auth` is `None`;
  otherwise, when the mode contains `"password"` and a password was given,
  `condor_store_cred` is run through `runcommand` (non-zero returncode →
  `cleanup`) and the password block is appended. -/
def initial_config (writeOk : Bool) (storeCredRc : Nat) (st : St) : Res St :=
  match st.glidein_local_dir, st.condor_dir with
  | some gld, some cd =>
    let bits := [dedent (dynamic_config_raw st.collector st.lingertime cd gld),
                 dedent static_config_raw]
    match st.wrapperStaged with
    | some none => .raise .typeError st
    | wst =>
      let bits := bits ++ (match wst with
        | some (some w) => [wrapper_line w]
        | _ => [])
      match st.cronStaged with
      | some none => .raise .typeError st
      | cst =>
        let bits := bits ++ (match cst with
          | some (some c) => [dedent (cron_block_raw c)]
          | _ => [])
        match st.auth with
        | none => .raise .typeError st
        | some a =>
          if strContains a "password" && st.password.isSome then
            if storeCredRc == 0 then
              let st := { st with fs := (gld ++ "/etc/condor_password") :: st.fs }
              writeConfig writeOk (bits ++ [dedent passwd_config_raw]) gld st
            else (cleanup st).toRes
          else writeConfig writeOk bits gld st
  | _, _ => .raise .attributeError st

/-! ## `CondorGlidein.start_condor` (lines 379-387) and the whole run -/

/-- `start_condor`: spawn `condor_master`, record its pid, sleep 300s, wait
for it with `communicate()`. The child's behaviour is outside the model; the
only state change is the recorded pid. -/
def start_condor (env : Env) (st : St) : Res St :=
  .ok { st with masterpid := some env.childPid }

/-- Sequencing of steps: a `sys.exit` or an uncaught exception in one step
short-circuits the rest, as in Python. -/
def bindR (r : Res St) (f : St → Res St) : Res St :=
  match r with
  | .ok st => f st
  | .exit c s => .exit c s
  | .raise e s => .raise e s

/-- The body of `CondorGlidein.__init__` (lines 61-78) after the attribute
assignments: `download_tarball`, `setup_workdir`, `unpack_tarball`,
(`report_info` — log only), optional wrapper/cron staging, `initial_config`,
`start_condor`, then `if noclean is False: self.cleanup()`. When `noclean`
is not `False` the constructor simply returns and the script falls off the
end of `__main__`. -/
def runProgram (env : Env) (st : St) : Res St :=
  bindR (download_tarball env st) fun st =>
  bindR (setup_workdir env st) fun st =>
  bindR (unpack_tarball env st) fun st =>
  bindR (stage_wrapper env st) fun st =>
  bindR (stage_cron env st) fun st =>
  bindR (initial_config env.writeOk env.storeCredRc st) fun st =>
  bindR (start_condor env st) fun st =>
  if st.noclean = false then (cleanup st).toRes else .ok st

/-- Exit status of the whole process: a normal return from `__init__` ends
the script with status 0; `sys.exit(c)` ends it with status `c`; an uncaught
Python exception makes the interpreter print a traceback and exit with
status 1. -/
def mainExitCode (env : Env) (st : St) : Nat :=
  match runProgram env st with
  | .ok _ => 0
  | .exit c _ => c
  | .raise _ _ => 1


/-- A concrete fully-populated state used to instantiate the configuration
rendering theorem: both auxiliary artifacts staged, password authentication
with a supplied password. -/
def sampleConfigSt : St :=
  { collector := "pool.example.org:9618",
    glidein_local_dir := some "/gl/local", condor_dir := some "/gl/condor",
    wrapperStaged := some (some "/x/wrap.sh"),
    cronStaged := some (some "/adm/hook.sh"),
    auth := some "password", password := some "hunter2" }

/-! ## Helper lemmas -/

theorem bindR_ok (st : St) (f : St → Res St) : bindR (Res.ok st) f = f st := rfl

theorem bindR_exit (c : Nat) (s : St) (f : St → Res St) :
    bindR (Res.exit c s) f = Res.exit c s := rfl

theorem bindR_raise (e : PyError) (s : St) (f : St → Res St) :
    bindR (Res.raise e s) f = Res.raise e s := rfl

theorem toRes_exit {α : Type} (c : Nat) (s : St) :
    (Term.exit c s).toRes (α := α) = Res.exit c s := rfl

theorem toRes_raise {α : Type} (e : PyError) (s : St) :
    (Term.raise e s).toRes (α := α) = Res.raise e s := rfl

theorem toRes_ne_ok {α : Type} (t : Term) (a : α) : t.toRes ≠ Res.ok a := by
  cases t <;> simp [Term.toRes]

theorem scontains_self (a : String) (l : List String) : (a :: l).contains a = true := by
  simp [List.contains, List.elem_cons]

theorem scontains_tail (a b : String) (l : List String) (h : l.contains a = true) :
    (b :: l).contains a = true := by
  have : a ∈ l := List.elem_iff.mp h
  exact List.elem_eq_true_of_mem (List.mem_cons_of_mem _ this)

/-- When the tarball path has been recorded, `cleanup` always reaches
`sys.exit(1)` — regardless of the pid, working-directory, or on-disk
status. -/
theorem cleanup_exits_of_tarball_recorded (st : St) (p : String)
    (h : st.condor_tarball = some p) :
    ∃ st1 : St, cleanup st = Term.exit 1 st1 := by
  by_cases hn : st.noclean
  · exact ⟨st, by simp [cleanup, hn]⟩
  · cases hgd : st.glidein_dir with
    | none =>
      refine ⟨{ st with fs := st.fs.erase p }, ?_⟩
      simp [cleanup, hn, h, hgd]
    | some d =>
      refine ⟨{ st with fs := removeTreeFilter d (st.fs.erase p) }, ?_⟩
      simp [cleanup, hn, h, hgd]

/-! ## Claim theorems -/

/-- C1 (code bug): the spec intends a distribution name containing "Ubuntu"
with major version "20" to resolve to a platform label containing
"Ubuntu20", but the first branch condition at line 145
(`if "Scientific" or "CentOS" or "Red Hat" in distro_name`) is a disjunction
of truthy string literals and therefore always true, so the resolver maps
"Ubuntu"/"20" to "RedHat20" and the final platform label is
`condor-8.6.0-x86_64_RedHat20-stripped`, which does not contain
"Ubuntu20". -/
theorem c1_ubuntu_mapped_to_redhat :
    resolveDistro "Linux" "Ubuntu" "20" = DistroRes.ok "RedHat20" ∧
    strContains "RedHat20" "Ubuntu20" = false ∧
    ∃ st1 : St,
      download_tarball { distro_name := "Ubuntu", distro_major := "20" } { } = Res.ok st1 ∧
      st1.condor_platform = some "condor-8.6.0-x86_64_RedHat20-stripped" := by
  refine ⟨by decide, by decide, ⟨_, rfl, rfl⟩⟩

/-- C2 (counterexample): in the lifecycle state where the archive path was
never recorded (`condor_tarball` unset — reachable, e.g., when the SIGINT
handler fires during platform detection, before line 163 runs) and the
skip-cleanup flag is off, `cleanup` raises `AttributeError` from
`os.remove(self.condor_tarball)` — the surrounding `except OSError` does not
catch it — so the fixed `sys.exit(1)` is never reached. This refutes the
claim that teardown raises no exception in every such state. -/
theorem c2_counterexample :
    cleanup { } = Term.raise PyError.attributeError { } ∧
    ({ } : St).masterpid = none ∧ ({ } : St).glidein_dir = none ∧
    ({ } : St).condor_tarball = none ∧ ({ } : St).noclean = false := by
  refine ⟨by decide, rfl, rfl, rfl, rfl⟩

/-- C2 (amended): whenever the archive path has been recorded, or the
skip-cleanup flag is set, teardown raises no exception and reaches the
fixed `sys.exit(1)` — in particular when the child pid was never recorded,
the working directory was never created, or the archive file was already
removed; but in a state where the archive path was never recorded (with the
skip-cleanup flag off) it raises `AttributeError` instead of exiting. -/
theorem c2_cleanup_amended (st st2 : St) (p : String)
    (h : st.condor_tarball = some p ∨ st.noclean = true)
    (h2 : st2.condor_tarball = none) (h3 : st2.noclean = false) :
    (∃ st1 : St, cleanup st = Term.exit 1 st1) ∧
    cleanup st2 = Term.raise PyError.attributeError st2 := by
  constructor
  · rcases h with h | h
    · exact cleanup_exits_of_tarball_recorded st p h
    · exact ⟨st, by simp [cleanup, h]⟩
  · simp [cleanup, h2, h3]

/-- Witness for C2 (amended): a state with the archive path recorded but
everything else unset exits with 1; the default state (archive path never
recorded) raises. -/
theorem c2_cleanup_amended_witness :
    (∃ st1 : St, cleanup { condor_tarball := some "/w/c.tar.gz" } = Term.exit 1 st1) ∧
    cleanup { } = Term.raise PyError.attributeError { } :=
  c2_cleanup_amended { condor_tarball := some "/w/c.tar.gz" } { } "/w/c.tar.gz"
    (Or.inl rfl) rfl rfl

/-- C6 (counterexample): on an unsupported architecture `download_tarball`
executes the bare `raise Exception` at line 137, which no caller catches —
the outcome is an uncaught exception, not a `sys.exit` through the teardown
routine; and on Linux an unrecognized distribution name does not make
resolution fail at all: it resolves to the RedHat family because the first
branch condition is always true. -/
theorem c6_counterexample :
    isExitRes (download_tarball { machine := "aarch64" } { }) = false ∧
    download_tarball { machine := "aarch64" } { } = Res.raise PyError.exception { } ∧
    resolveDistro "Linux" "SomeNewDistro" "42" = DistroRes.ok "RedHat42" := by
  refine ⟨by decide, by decide, by decide⟩

/-- C6 (amended): for every run on an unsupported CPU architecture the
resolver fails before any network download is attempted — the state
(including the file set) is unchanged and the outcome is the same for every
download result — but the failure is an uncaught `Exception`, not a call
into the teardown routine; and on Linux the resolver never fails on an
unrecognized distribution name, because the first family branch's condition
is a disjunction of truthy string literals. -/
theorem c6_amended (env : Env) (st : St) (name maj : String)
    (h : env.machine ≠ "x86_64") :
    download_tarball env st = Res.raise PyError.exception st ∧
    resolveDistro "Linux" name maj = DistroRes.ok ("RedHat" ++ maj) := by
  constructor
  · simp [download_tarball, h]
  · have hsci : pyTruthy "Scientific" = true := by decide
    simp [resolveDistro, hsci]

/-- Witness for C6 (amended). -/
theorem c6_amended_witness :
    download_tarball { machine := "armv7l" } { } = Res.raise PyError.exception { } ∧
    resolveDistro "Linux" "MysteryLinux" "9" = DistroRes.ok ("RedHat" ++ "9") :=
  c6_amended { machine := "armv7l" } { } "MysteryLinux" "9" (by decide)

/-- C10: on a host whose OS is neither Linux nor Darwin, no branch of lines
144-154 assigns the local variable `distro`, so its use at line 156 raises
`NameError`, which nothing catches — the run does not go through the
declared fatal-error/teardown path. -/
theorem c10_other_os_name_error (env : Env) (st : St)
    (hma : env.machine = "x86_64")
    (h2 : env.system ≠ "Linux") (h3 : env.system ≠ "Darwin") :
    download_tarball env st = Res.raise PyError.nameError st ∧
    isExitRes (download_tarball env st) = false := by
  have hr : resolveDistro env.system env.distro_name env.distro_major = .nameErr := by
    simp [resolveDistro, h2, h3]
  constructor
  · simp [download_tarball, hma, hr]
  · simp [download_tarball, hma, hr, isExitRes]

/-- Witness for C10. -/
theorem c10_witness :
    download_tarball { system := "Windows" } { } = Res.raise PyError.nameError { } ∧
    isExitRes (download_tarball { system := "Windows" } { }) = false :=
  c10_other_os_name_error { system := "Windows" } { } rfl (by decide) (by decide)

/-- C9: configuration rendering requires the authentication-mode field to be
a string — when it is `None`, the membership test `"password" in self.auth`
at line 343 raises an unhandled `TypeError` instead of skipping the password
block. -/
theorem c9_auth_none_type_error (st : St) (writeOk : Bool) (rc : Nat)
    (gld cd : String)
    (h1 : st.glidein_local_dir = some gld) (h2 : st.condor_dir = some cd)
    (h3 : st.wrapperStaged = none) (h4 : st.cronStaged = none)
    (h5 : st.auth = none) :
    initial_config writeOk rc st = Res.raise PyError.typeError st := by
  simp [initial_config, h1, h2, h3, h4, h5]

/-- Witness for C9. -/
theorem c9_witness :
    initial_config true 0
      { glidein_local_dir := some "/g/local", condor_dir := some "/g/condor",
        auth := none } =
    Res.raise PyError.typeError
      { glidein_local_dir := some "/g/local", condor_dir := some "/g/condor",
        auth := none } :=
  c9_auth_none_type_error _ true 0 "/g/local" "/g/condor" rfl rfl rfl rfl rfl

/-- C5 (counterexample): staging an artifact from a URL whose download
fails is NOT fatal — `realize_file`'s bare `except` only logs and falls
through returning `None`, `copy_to_exec`'s own `except` never fires, the
`os.chmod(None, ...)` `TypeError` is swallowed, and `copy_to_exec` returns
normally with `None` instead of routing to teardown. -/
theorem c5_counterexample :
    copy_to_exec MkdirRes.ok false true "http://host/wrap.sh"
        { glidein_local_dir := some "/g/local" } =
      Res.ok ({ glidein_local_dir := some "/g/local" }, none) := by
  decide

/-- C5 (amended): a failure to materialize an artifact from a local path is
fatal (routes to the teardown routine); a failure to download the artifact
from a URL is logged but not fatal — `copy_to_exec` returns normally with
`None`; and when materialization succeeds the staged path is returned
regardless of whether setting the executable bit succeeds (the `chm`
argument is arbitrary). -/
theorem c5_staging_amended (st : St) (gld pathL pathH : String) (chm : Bool)
    (h1 : st.glidein_local_dir = some gld)
    (hL : strStartsWith pathL "http" = false)
    (hH : strStartsWith pathH "http" = true) :
    copy_to_exec MkdirRes.ok false chm pathL st = (cleanup st).toRes ∧
    copy_to_exec MkdirRes.ok false chm pathH st = Res.ok (st, none) ∧
    copy_to_exec MkdirRes.ok true chm pathL st =
      Res.ok ({ st with fs := (gld ++ "/libexec" ++ "/" ++ basename pathL) :: st.fs },
              some (gld ++ "/libexec" ++ "/" ++ basename pathL)) := by
  refine ⟨?_, ?_, ?_⟩
  · simp [copy_to_exec, h1, hL]
  · simp [copy_to_exec, h1, hH]
  · simp [copy_to_exec, h1, hL]

/-- Witness for C5 (amended). -/
theorem c5_staging_amended_witness :
    copy_to_exec MkdirRes.ok false false "/opt/wrap.sh"
        { glidein_local_dir := some "/g/local" } =
      (cleanup { glidein_local_dir := some "/g/local" }).toRes ∧
    copy_to_exec MkdirRes.ok false false "http://h/w.sh"
        { glidein_local_dir := some "/g/local" } =
      Res.ok ({ glidein_local_dir := some "/g/local" }, none) ∧
    copy_to_exec MkdirRes.ok true false "/opt/wrap.sh"
        { glidein_local_dir := some "/g/local" } =
      Res.ok ({ glidein_local_dir := some "/g/local",
                fs := ("/g/local" ++ "/libexec" ++ "/" ++ basename "/opt/wrap.sh") :: [] },
              some ("/g/local" ++ "/libexec" ++ "/" ++ basename "/opt/wrap.sh")) :=
  c5_staging_amended { glidein_local_dir := some "/g/local" } "/g/local"
    "/opt/wrap.sh" "http://h/w.sh" false rfl (by decide) (by decide)

/-- C8: a successful `unpack_tarball` deletes the archive from the file set
before returning (the run proceeds only afterwards); and a `cleanup`
invocation in a state where the archive path is recorded but the file is
already absent treats the `ENOENT` as success and still reaches the fixed
`sys.exit(1)`. -/
theorem c8_tarball_deleted_and_cleanup_tolerant (env : Env) (st st2 st1 : St)
    (tb q : String)
    (htb : st.condor_tarball = some tb) (hnd : st.fs.Nodup)
    (hok : unpack_tarball env st = Res.ok st1)
    (h2t : st2.condor_tarball = some q) (h2f : q ∉ st2.fs)
    (h2n : st2.noclean = false) :
    tb ∉ st1.fs ∧ (∃ st3 : St, cleanup st2 = Term.exit 1 st3) := by
  constructor
  · unfold unpack_tarball at hok
    cases htn : env.tarNames with
    | none =>
      simp only [htb, htn] at hok
      exact absurd hok (toRes_ne_ok _ _)
    | some names =>
      cases hgd : st.glidein_dir with
      | none =>
        simp only [htb, htn, hgd] at hok
        exact absurd hok (toRes_ne_ok _ _)
      | some gd =>
        cases names with
        | nil =>
          simp only [htb, htn, hgd] at hok
          exact absurd hok (toRes_ne_ok _ _)
        | cons n rest =>
          simp only [htb, htn, hgd] at hok
          by_cases hc : st.fs.contains tb = true
          · rw [if_pos hc] at hok
            injection hok with h
            rw [← h]
            exact hnd.not_mem_erase
          · rw [if_neg hc] at hok
            exact absurd hok (toRes_ne_ok _ _)
  · exact cleanup_exits_of_tarball_recorded st2 q h2t

/-- Witness for C8: a concrete successful unpack leaves no tarball in the
file set; a concrete cleanup with the archive path recorded but no file on
disk still exits with 1. -/
theorem c8_witness :
    "/w/c.tar.gz" ∉
      ({ condor_tarball := some "/w/c.tar.gz", glidein_dir := some "/g",
         condor_dir := some "/g/condor-8.6.0-x86_64_RedHat7-stripped",
         fs := [] } : St).fs ∧
    (∃ st3 : St, cleanup { condor_tarball := some "/w/c.tar.gz" } = Term.exit 1 st3) :=
  c8_tarball_deleted_and_cleanup_tolerant { }
    { condor_tarball := some "/w/c.tar.gz", glidein_dir := some "/g",
      fs := ["/w/c.tar.gz"] }
    { condor_tarball := some "/w/c.tar.gz" }
    { condor_tarball := some "/w/c.tar.gz", glidein_dir := some "/g",
      condor_dir := some "/g/condor-8.6.0-x86_64_RedHat7-stripped", fs := [] }
    "/w/c.tar.gz" "/w/c.tar.gz"
    rfl (by decide) (by decide) rfl (by decide) rfl

/-- C7: after a successful download whose file-type probe output does not
contain "gzip compressed data", the whole run ends in the fixed
`sys.exit(1)` via `cleanup`, and the extraction step is never executed: the
run's outcome is identical for every possible tar-archive content
(`tarNames`), because the run stops at the probe check inside
`download_tarball`. -/
theorem c7_bad_probe_skips_extraction (env : Env) (st : St)
    (hma : env.machine = "x86_64") (hsy : env.system = "Linux")
    (hdl : env.downloadOk = true) (hrc : env.probeRc = 0)
    (hpo : strContains env.probeOut "gzip compressed data" = false)
    (hnc : st.noclean = false) :
    exitCodeOf (runProgram env st) = some 1 ∧
    ∀ t : Option (List String),
      runProgram { env with tarNames := t } st = runProgram env st := by
  have hsci : pyTruthy "Scientific" = true := by decide
  have hstep : exitCodeOf (download_tarball env st) = some 1 := by
    simp [download_tarball, resolveDistro, cleanup, Term.toRes, exitCodeOf,
          hma, hsy, hdl, hrc, hpo, hnc, hsci]
  cases hx : download_tarball env st with
  | ok st1 => rw [hx] at hstep; simp [exitCodeOf] at hstep
  | raise e s => rw [hx] at hstep; simp [exitCodeOf] at hstep
  | exit c s =>
    rw [hx] at hstep
    simp only [exitCodeOf, Option.some.injEq] at hstep
    constructor
    · have hdt : runProgram env st = Res.exit c s := by
        simp [runProgram, hx, bindR]
      rw [hdt, hstep]
      rfl
    · intro t
      have hdt : download_tarball { env with tarNames := t } st
          = download_tarball env st := rfl
      simp [runProgram, hdt, hx, bindR]

/-- Witness for C7: a concrete run whose probe reports HTML instead of a
gzip archive exits with 1 and ignores the archive contents. -/
theorem c7_witness :
    exitCodeOf (runProgram { probeOut := "HTML document text" } { }) = some 1 ∧
    ∀ t : Option (List String),
      runProgram { ({ probeOut := "HTML document text" } : Env) with tarNames := t } { } =
        runProgram { probeOut := "HTML document text" } { } :=
  c7_bad_probe_skips_extraction { probeOut := "HTML document text" } { }
    rfl rfl rfl rfl (by decide) rfl

/-- C3 (counterexample): a fully successful run with the skip-cleanup flag
set never calls `cleanup` — `__init__` returns, the script falls off the end
of `__main__`, and the process exits with status 0, not the fixed non-zero
status. The working directory is still present in the final file set. -/
theorem c3_counterexample :
    mainExitCode { } { noclean := true, auth := some "GSI" } = 0 ∧
    ∃ st1 : St,
      runProgram { } { noclean := true, auth := some "GSI" } = Res.ok st1 ∧
      st1.glidein_dir = some "/tmp/run/condor-glidein.ABC123" ∧
      st1.fs.contains "/tmp/run/condor-glidein.ABC123" = true := by
  refine ⟨by decide, ⟨_, rfl, rfl, by decide⟩⟩

/-- C3 (amended): whenever teardown is invoked the process exits with the
fixed status 1: a fully successful run with the skip-cleanup flag unset
ends in `cleanup` and exits 1, and any `cleanup` call in a state with the
skip-cleanup flag set leaves the state (including the file set) intact and
still exits 1. But a successful run with the skip-cleanup flag set bypasses
`cleanup` entirely and exits 0 (see the counterexample), so "every run ends
with the fixed non-zero status" does not hold. -/
theorem c3_exit_status_amended (env : Env) (st st2 : St) (a n : String)
    (ns : List String)
    (hma : env.machine = "x86_64") (hsy : env.system = "Linux")
    (hdl : env.downloadOk = true) (hrc : env.probeRc = 0)
    (hpo : strContains env.probeOut "gzip compressed data" = true)
    (hwd : env.workdirOk = true) (htn : env.tarNames = some (n :: ns))
    (hwp : st.exec_wrapper_param = none) (hcp : st.startd_cron_param = none)
    (hws : st.wrapperStaged = none) (hcs : st.cronStaged = none)
    (hau : st.auth = some a) (hpw : strContains a "password" = false)
    (hwr : env.writeOk = true) (hnc : st.noclean = false)
    (h2 : st2.noclean = true) :
    mainExitCode env st = 1 ∧ cleanup st2 = Term.exit 1 st2 := by
  have hsci : pyTruthy "Scientific" = true := by decide
  refine ⟨?_, by simp [cleanup, h2]⟩
  simp [mainExitCode, runProgram, download_tarball, resolveDistro, setup_workdir,
        unpack_tarball, stage_wrapper, stage_cron, initial_config, writeConfig,
        start_condor, bindR, cleanup, Term.toRes,
        hma, hsy, hdl, hrc, hpo, hwd, htn, hwp, hcp, hws, hcs, hau, hpw, hwr,
        hnc, hsci, scontains_self, scontains_tail]

/-- Witness for C3 (amended): the default environment with password-free
auth exits 1 through cleanup; cleanup under the skip-cleanup flag exits 1
leaving the state untouched. -/
theorem c3_exit_status_amended_witness :
    mainExitCode { } { auth := some "GSI" } = 1 ∧
    cleanup { noclean := true } = Term.exit 1 { noclean := true } :=
  c3_exit_status_amended { } { auth := some "GSI" } { noclean := true }
    "GSI" "condor-8.6.0-x86_64_RedHat7-stripped" []
    rfl rfl rfl rfl (by decide) rfl rfl rfl rfl rfl rfl rfl (by decide) rfl rfl rfl

/-- C4: on a successful rendering run the configuration text is exactly the
concatenation, in fixed order, of the dedented dynamic block (interpolating
collector, linger time, release dir and local dir), the dedented static
block, then — each present if and only if its condition holds — the
job-wrapper directive (iff a wrapper artifact was staged), the periodic-hook
block (iff a hook artifact was staged), and the password-authentication
block (iff the authentication mode contains "password" and a password was
supplied). The remaining conjuncts pin down the dedented blocks as explicit
literals, so the interpolation and the verbatim static block are checked
character for character. -/
theorem c4_rendered_config (st : St) (gld cd a : String) (wopt copt : Option String)
    (h1 : st.glidein_local_dir = some gld) (h2 : st.condor_dir = some cd)
    (h3 : st.wrapperStaged = Option.map some wopt)
    (h4 : st.cronStaged = Option.map some copt)
    (h5 : st.auth = some a) :
    (∃ st1 : St, initial_config true 0 st = Res.ok st1 ∧
      st1.configText = some (String.join
        ((([dedent (dynamic_config_raw st.collector st.lingertime cd gld),
            dedent static_config_raw] ++
           (match wopt with | some w => [wrapper_line w] | none => [])) ++
          (match copt with | some c => [dedent (cron_block_raw c)] | none => [])) ++
         (if strContains a "password" && st.password.isSome
          then [dedent passwd_config_raw] else [])))) ∧
    dedent static_config_raw =
      "\nSUSPEND                     = FALSE\nPREEMPT                     = FALSE\nKILL                        = FALSE\nRANK                        = 0\nCLAIM_WORKLIFE              = 3600\nJOB_RENICE_INCREMENT        = 0\nHIGHPORT                    = 30000\nLOWPORT                     = 20000\nDAEMON_LIST                 = MASTER, STARTD \nALLOW_WRITE                 = condor_pool@*, submit-side@matchsession\nSEC_DEFAULT_AUTHENTICATION  = REQUIRED\nSEC_DEFAULT_ENCRYPTION      = REQUIRED\nSEC_DEFAULT_INTEGRITY       = REQUIRED\nALLOW_ADMINISTRATOR         = condor_pool@*/*\nSLOT_TYPE_1                 = cpus=1\nNUM_SLOTS_TYPE_1            = 1\nLOCAL_DIR                   = $(GLIDEIN_LOCAL_DIR)\nLOCK                        = $(GLIDEIN_LOCAL_DIR)/lock\nUSE_SHARED_PORT             = FALSE\nCOLLECTOR_PORT              = 9618 \n" ∧
    dedent (dynamic_config_raw "pool.example.org:9618" 600 "/gl/condor" "/gl/local") =
      "\nCOLLECTOR_HOST = pool.example.org:9618\nSTARTD_NOCLAIM_SHUTDOWN = 600\nSTART = TRUE\nRELEASE_DIR = /gl/condor\nGLIDEIN_LOCAL_DIR = /gl/local \n" ∧
    dedent (cron_block_raw "/adm/hook.sh") =
      "\nSTARTD_CRON_JOBLIST          = $(STARTD_CRON_JOBLIST) generic\nSTARTD_CRON_generic_EXECUTABLE = $(GLIDEIN_LOCAL_DIR)/libexec/hook.sh\nSTARTD_CRON_generic_PERIOD   = 5m\nSTARTD_CRON_generic_MODE     = PERIODIC\nSTARTD_CRON_generic_RECONFIG = TRUE\nSTARTD_CRON_generic_KILL     = TRUE\nSTARTD_CRON_generic_ARGS     = NONE \n" ∧
    dedent passwd_config_raw =
      "\nSEC_DEFAULT_AUTHENTICATION_METHODS = PASSWORD\nSEC_PASSWORD_FILE = $(GLIDEIN_LOCAL_DIR)/etc/condor_password\n" := by
  refine ⟨?_, by decide, by decide, by decide, by decide⟩
  by_cases hpc : (strContains a "password" && st.password.isSome) = true
  · cases wopt with
    | none =>
      cases copt with
      | none => simp [initial_config, writeConfig, h1, h2, h3, h4, h5, hpc]
      | some c => simp [initial_config, writeConfig, h1, h2, h3, h4, h5, hpc]
    | some w =>
      cases copt with
      | none => simp [initial_config, writeConfig, h1, h2, h3, h4, h5, hpc]
      | some c => simp [initial_config, writeConfig, h1, h2, h3, h4, h5, hpc]
  · cases wopt with
    | none =>
      cases copt with
      | none => simp [initial_config, writeConfig, h1, h2, h3, h4, h5, hpc]
      | some c => simp [initial_config, writeConfig, h1, h2, h3, h4, h5, hpc]
    | some w =>
      cases copt with
      | none => simp [initial_config, writeConfig, h1, h2, h3, h4, h5, hpc]
      | some c => simp [initial_config, writeConfig, h1, h2, h3, h4, h5, hpc]

/-- Witness for C4: the fully-populated sample state renders exactly the
expected configuration text — the dynamic block with interpolated values,
the static block verbatim, then the wrapper directive, the periodic-hook
block and the password block, in that order. -/
theorem c4_rendered_config_witness :
    ∃ st1 : St, initial_config true 0 sampleConfigSt = Res.ok st1 ∧
      st1.configText = some (String.join
        ["\nCOLLECTOR_HOST = pool.example.org:9618\nSTARTD_NOCLAIM_SHUTDOWN = 600\nSTART = TRUE\nRELEASE_DIR = /gl/condor\nGLIDEIN_LOCAL_DIR = /gl/local \n",
         "\nSUSPEND                     = FALSE\nPREEMPT                     = FALSE\nKILL                        = FALSE\nRANK                        = 0\nCLAIM_WORKLIFE              = 3600\nJOB_RENICE_INCREMENT        = 0\nHIGHPORT                    = 30000\nLOWPORT                     = 20000\nDAEMON_LIST                 = MASTER, STARTD \nALLOW_WRITE                 = condor_pool@*, submit-side@matchsession\nSEC_DEFAULT_AUTHENTICATION  = REQUIRED\nSEC_DEFAULT_ENCRYPTION      = REQUIRED\nSEC_DEFAULT_INTEGRITY       = REQUIRED\nALLOW_ADMINISTRATOR         = condor_pool@*/*\nSLOT_TYPE_1                 = cpus=1\nNUM_SLOTS_TYPE_1            = 1\nLOCAL_DIR                   = $(GLIDEIN_LOCAL_DIR)\nLOCK                        = $(GLIDEIN_LOCAL_DIR)/lock\nUSE_SHARED_PORT             = FALSE\nCOLLECTOR_PORT              = 9618 \n",
         "USER_JOB_WRAPPER = $(GLIDEIN_LOCAL_DIR)/libexec/wrap.sh",
         "\nSTARTD_CRON_JOBLIST          = $(STARTD_CRON_JOBLIST) generic\nSTARTD_CRON_generic_EXECUTABLE = $(GLIDEIN_LOCAL_DIR)/libexec/hook.sh\nSTARTD_CRON_generic_PERIOD   = 5m\nSTARTD_CRON_generic_MODE     = PERIODIC\nSTARTD_CRON_generic_RECONFIG = TRUE\nSTARTD_CRON_generic_KILL     = TRUE\nSTARTD_CRON_generic_ARGS     = NONE \n",
         "\nSEC_DEFAULT_AUTHENTICATION_METHODS = PASSWORD\nSEC_PASSWORD_FILE = $(GLIDEIN_LOCAL_DIR)/etc/condor_password\n"]) := by
  obtain ⟨⟨st1, hok, htext⟩, hs, hd, hc, hp⟩ :=
    c4_rendered_config sampleConfigSt "/gl/local" "/gl/condor" "password"
      (some "/x/wrap.sh") (some "/adm/hook.sh") rfl rfl rfl rfl rfl
  have hw : wrapper_line "/x/wrap.sh"
      = "USER_JOB_WRAPPER = $(GLIDEIN_LOCAL_DIR)/libexec/wrap.sh" := by decide
  have hcond :
      (strContains "password" "password" && (some "hunter2" : Option String).isSome)
        = true := by decide
  refine ⟨st1, hok, ?_⟩
  rw [htext]
  simp only [sampleConfigSt, hcond, if_true, List.cons_append, List.nil_append,
             List.append_nil]
  rw [hd, hs, hw, hc, hp]
